import Mathlib

/-!
Verification of the patient-timeline derivation of the ARDS dashboard
(`src/app/ards_dashboard.py`), as a shallow embedding.

Numeric cells of the two tabular datasets are modelled by `Cell` (a raw
cell: missing, a number, or free text) and `Flt` (the value produced by
pandas numeric operations: NaN, an infinity, or an exact finite value).
Finite values are exact rationals; the dashboard's claims are about exact
quotients and comparisons, not about binary rounding.

Timestamps parsed by `pd.to_datetime` are modelled as rationals (seconds),
with `Option` for NaT where the code distinguishes it (`icu_in_time`,
`ARDS_onset_dttm`, `discharge_datetime`).

The functions `create_patient_timeline` / `add_intervention_markers` of the
source are modelled by `create_patient_timeline` below, which returns the
structured `Timeline` description (plotted series, marker positions, axis
bound, and the NMB row-count statistic).  The sort performed at line 324
of the source (`patient_ts.sort_values('recorded_dttm')`) is modelled by
`sortByTime`, and the composition sort-then-derive by `patient_timeline`.
-/

namespace Ards

/-- A pandas float value: NaN (missing or non-coercible), an infinity
(produced by dividing a nonzero float by zero), or a finite value held as
an exact rational. -/
inductive Flt where
  | nan : Flt
  | pinf : Flt
  | ninf : Flt
  | fin : ℚ → Flt
deriving DecidableEq

/-- `pd.isna` on a float value: true exactly for NaN (infinities are not NA). -/
def Flt.isNan : Flt → Bool
  | .nan => true
  | _ => false

/-- Float division as numpy performs it: NaN propagates; a nonzero finite
value divided by zero gives a signed infinity; `0/0` and `inf/inf` give
NaN; finite divisions are exact. -/
def Flt.div : Flt → Flt → Flt
  | .nan, _ => .nan
  | _, .nan => .nan
  | .pinf, .pinf => .nan
  | .pinf, .ninf => .nan
  | .ninf, .pinf => .nan
  | .ninf, .ninf => .nan
  | .pinf, .fin b => if b < 0 then .ninf else .pinf
  | .ninf, .fin b => if b < 0 then .pinf else .ninf
  | .fin _, .pinf => .fin 0
  | .fin _, .ninf => .fin 0
  | .fin a, .fin b =>
      if b = 0 then (if a = 0 then .nan else if 0 < a then .pinf else .ninf)
      else .fin (a / b)

/-- `Series.fillna`: keep the first value unless it is NaN, in which case
take the second. -/
def Flt.fillna (x y : Flt) : Flt := if x.isNan then y else x

/-- The elementwise comparison `x > 0` as pandas evaluates it: false on NaN. -/
def Flt.gt0 : Flt → Bool
  | .fin q => decide (0 < q)
  | .pinf => true
  | _ => false

/-- Python truthiness of a float: `0.0` is falsy; NaN and infinities are truthy. -/
def Flt.pyTruthy : Flt → Bool
  | .fin q => decide (q ≠ 0)
  | _ => true

/-- The strict comparison `a > b` on floats: any comparison with NaN is false. -/
def Flt.gtB : Flt → Flt → Bool
  | .nan, _ => false
  | _, .nan => false
  | .pinf, .pinf => false
  | .pinf, _ => true
  | _, .pinf => false
  | .ninf, _ => false
  | .fin _, .ninf => true
  | .fin a, .fin b => decide (b < a)

/-- Python's two-argument `max`: `m = a; if b > m: m = b`. -/
def pymax2 (a b : Flt) : Flt := if Flt.gtB b a then b else a

/-- Python's three-argument `max`, evaluated left to right (NaN comparisons
are false, so a NaN first argument survives). -/
def pymax3 (a b c : Flt) : Flt := pymax2 (pymax2 a b) c

/-- `Series.max()` with the default `skipna=True`: NaN entries are ignored;
an empty or all-NaN series gives NaN. -/
def seriesMax (l : List Flt) : Flt :=
  l.foldl (fun m x => if x.isNan then m else if m.isNan then x else if Flt.gtB x m then x else m) .nan

/-- A raw cell of an object-typed column: missing (None / NaN), a number,
or free text. -/
inductive Cell where
  | null : Cell
  | num : ℚ → Cell
  | str : String → Cell
deriving DecidableEq

/-- `pd.to_numeric(_, errors='coerce')` on one cell: missing and
non-numeric text coerce to NaN; numeric text is parsed.  Text parsing
models decimal numerals (optional sign, integer and fractional digits);
scientific notation and the special tokens accepted by the C parser are
not modelled (no claim involves them). -/
def parseUnsigned (cs : List Char) : Option ℚ :=
  match cs.span Char.isDigit with
  | (intPart, rest) =>
    match rest with
    | [] => if intPart.isEmpty then none else some (Nat.ofDigits 10 (intPart.map Char.toNat |>.map (fun n => n - 48)).reverse : ℕ)
    | '.' :: fracPart =>
        if fracPart.all Char.isDigit ∧ (intPart ≠ [] ∨ fracPart ≠ []) then
          some ((Nat.ofDigits 10 (intPart.map Char.toNat |>.map (fun n => n - 48)).reverse : ℕ) +
            (Nat.ofDigits 10 (fracPart.map Char.toNat |>.map (fun n => n - 48)).reverse : ℕ) / (10 : ℚ) ^ fracPart.length)
        else none
    | _ => none

/-- Lowercasing as `str.lower()` does, written over the character list so
that it evaluates inside the kernel. -/
def strLower (s : String) : String := ⟨s.data.map Char.toLower⟩

/-- Numeric coercion of a raw cell (see `parseUnsigned`). -/
def toNumeric (c : Cell) : Flt :=
  match c with
  | .null => .nan
  | .num q => .fin q
  | .str s =>
      match parseUnsigned (match s.data with
        | '-' :: rest => rest
        | '+' :: rest => rest
        | cs => cs) with
      | some q => .fin (if s.data.head? = some '-' then -q else q)
      | none => .nan

/-- `astype(str)` on one cell: a missing value renders as the text "nan",
a number as its decimal rendering, text is unchanged. -/
def cellStr (c : Cell) : String :=
  match c with
  | .null => "nan"
  | .num q => toString q
  | .str s => s

/-- One row of the time-series table, with the columns the dashboard
reads.  `recorded_dttm` is the observation timestamp; `icu_in_time` and
`ARDS_onset_dttm` are nullable timestamps (NaT modelled as `none`). -/
structure Obs where
  hospitalization_id : ℕ
  recorded_dttm : ℚ
  icu_in_time : Option ℚ
  ARDS_onset_dttm : Option ℚ
  pao2 : Cell
  spo2 : Cell
  fio2_set : Cell
  peep_set : Cell
  cisatracurium_dose : Flt
  vecuronium_dose : Flt
  rocuronium_dose : Flt
  atracurium_dose : Flt
  pancuronium_dose : Flt
  prone_flag : Cell
  new_tracheostomy : Cell
deriving DecidableEq

/-- Load-time derived column `hours_from_icu_admission`
(`(recorded_dttm - icu_in_time).dt.total_seconds() / 3600`), NaN when
`icu_in_time` is NaT. -/
def hours_from_icu_admission (r : Obs) : Flt :=
  match r.icu_in_time with
  | some t => .fin ((r.recorded_dttm - t) / 3600)
  | none => .nan

/-- Load-time derived column `hours_from_ards_onset`, computed only on
rows whose `ARDS_onset_dttm` is non-null and NaN elsewhere. -/
def hours_from_ards_onset (r : Obs) : Flt :=
  match r.ARDS_onset_dttm with
  | some o => .fin ((r.recorded_dttm - o) / 3600)
  | none => .nan

/-- Derived column `days_from_admission = hours_from_icu_admission / 24`. -/
def days_from_admission (r : Obs) : Flt :=
  (hours_from_icu_admission r).div (.fin 24)

/-- Derived column `pf_ratio = to_numeric(pao2) / to_numeric(fio2_set)`. -/
def pf_ratio (r : Obs) : Flt := (toNumeric r.pao2).div (toNumeric r.fio2_set)

/-- Derived column `sf_ratio = to_numeric(spo2) / to_numeric(fio2_set)`. -/
def sf_ratio (r : Obs) : Flt := (toNumeric r.spo2).div (toNumeric r.fio2_set)

/-- Derived column `respiratory_ratio = pf_ratio.fillna(sf_ratio)`. -/
def respiratory_ratio (r : Obs) : Flt := (pf_ratio r).fillna (sf_ratio r)

/-- The prone test of `add_intervention_markers`:
`to_numeric(prone_flag, errors='coerce') == 1` or
`prone_flag.astype(str).str.lower() == 'prone'`. -/
def isProne (c : Cell) : Bool :=
  decide (toNumeric c = Flt.fin 1) || decide (strLower (cellStr c) = "prone")

/-- The NMB test: any of the five agent dose columns `> 0`
(`(patient_ts[nmb_cols] > 0).any(axis=1)`); NaN compares false. -/
def nmbRow (r : Obs) : Bool :=
  r.cisatracurium_dose.gt0 || r.vecuronium_dose.gt0 || r.rocuronium_dose.gt0 ||
    r.atracurium_dose.gt0 || r.pancuronium_dose.gt0

/-- The tracheostomy test: `to_numeric(new_tracheostomy, errors='coerce') == 1`. -/
def trachRow (r : Obs) : Bool := decide (toNumeric r.new_tracheostomy = Flt.fin 1)

/-- Stable insertion of a row into a list already sorted ascending by
`recorded_dttm`: the new row goes after every row with an equal or earlier
timestamp. -/
def insertByTime (r : Obs) : List Obs → List Obs
  | [] => [r]
  | x :: xs => if x.recorded_dttm ≤ r.recorded_dttm then x :: insertByTime r xs else r :: x :: xs

/-- `patient_ts.sort_values('recorded_dttm')` (source line 324): a stable
ascending sort by timestamp, realised as left-to-right insertion. -/
def sortByTime (l : List Obs) : List Obs :=
  l.foldl (fun acc r => insertByTime r acc) []

/-- One row of the static (per-admission) table, restricted to the fields
the timeline reads.  `discharge_datetime` distinguishes a parsed timestamp,
NaT, and an absent column (`Series.get` returning `None`);
`icu_los_days` is `none` when the column is absent, in which case
`patient_static.get('icu_los_days', 7)` yields the default 7. -/
inductive DischargeVal where
  | absent : DischargeVal
  | NaT : DischargeVal
  | ts : ℚ → DischargeVal
deriving DecidableEq

structure Summary where
  hospitalization_id : ℕ
  discharge_datetime : DischargeVal
  icu_los_days : Option Flt
deriving DecidableEq

/-- `hasattr(x, 'total_seconds')` for the possible values of
`patient_static.get('discharge_datetime')`: a `pd.Timestamp` has no
`total_seconds` attribute (that is a `Timedelta` method), `None` has none
either, but `pd.NaT` does (NaT imitates both the timestamp and the
timedelta interface). -/
def hasTotalSeconds : DischargeVal → Bool
  | .NaT => true
  | _ => false

/-- Source lines 116-119.  `icu_discharge_day` is the conditional
expression
`(get('discharge_datetime') - icu_in_time.iloc[0]).total_seconds()/(24*3600)
 if hasattr(get('discharge_datetime'), 'total_seconds') else None`,
followed by the fallback to `get('icu_los_days', 7)` when it is `None`.
The `hasattr` branch is taken only for NaT (see `hasTotalSeconds`), and
there `NaT - t` is NaT, whose `total_seconds()` is NaN — so the branch
yields NaN regardless of the first row's `icu_in_time`; every other shape
of `discharge_datetime` falls back to the ICU length of stay. -/
def icu_discharge_day (ps : Summary) : Flt :=
  if hasTotalSeconds ps.discharge_datetime then Flt.nan
  else match ps.icu_los_days with
    | some v => v
    | none => .fin 7

/-- Source line 122: `if icu_discharge_day and icu_discharge_day > 0`,
emitting one vertical marker at that day. -/
def discharge_marks (ps : Summary) : List Flt :=
  let d := icu_discharge_day ps
  if d.pyTruthy && d.gt0 then [d] else []

/-- The structured timeline the dashboard draws: the two plotted series
(as x,y pairs), the x positions of each family of markers, the two fixed
horizontal threshold lines, the x-axis upper bound, and the NMB row-count
statistic. -/
structure Timeline where
  ratio_points : List (Flt × Flt)
  peep_points : List (Flt × Flt)
  ards_onset_marks : List Flt
  prone_marks : List Flt
  nmb_marks : List Flt
  trach_marks : List Flt
  hline_ys : List ℚ
  dis_marks : List Flt
  xaxis_upper : Flt
  nmb_hours : ℕ
deriving DecidableEq

/-- `create_patient_timeline` plus `add_intervention_markers`
(source lines 61-190 and 192-249), applied to the selected patient's rows
as the caller passes them (already sorted at line 324).  `hasProneCol`
models `'prone_flag' in patient_ts.columns`. -/
def create_patient_timeline (hasProneCol : Bool) (patient_ts : List Obs) (ps : Summary) : Timeline :=
  let ratio_data := patient_ts.filter
    (fun r => !(respiratory_ratio r).isNan && !(days_from_admission r).isNan)
  let peep_data := (patient_ts.filter
    (fun r => !(decide (r.peep_set = Cell.null)) && !(days_from_admission r).isNan)).filter
    (fun r => !(toNumeric r.peep_set).isNan)
  let ards_rows := patient_ts.filter (fun r => !(hours_from_ards_onset r).isNan)
  let trach_rows := patient_ts.filter trachRow
  { ratio_points := ratio_data.map (fun r => (days_from_admission r, respiratory_ratio r))
    peep_points := peep_data.map (fun r => (days_from_admission r, toNumeric r.peep_set))
    ards_onset_marks :=
      match ards_rows with
      | r :: _ => [days_from_admission r]
      | [] => []
    prone_marks :=
      if hasProneCol then
        (patient_ts.filter (fun r => isProne r.prone_flag)).map days_from_admission
      else []
    nmb_marks := (patient_ts.filter nmbRow).map days_from_admission
    trach_marks :=
      match trach_rows with
      | r :: _ => [days_from_admission r]
      | [] => []
    hline_ys := [235, 148]
    dis_marks := discharge_marks ps
    xaxis_upper :=
      pymax3 (seriesMax (patient_ts.map days_from_admission)) (icu_discharge_day ps) (.fin 7)
    nmb_hours := (patient_ts.filter nmbRow).length }

/-- The selected patient's pipeline: sort the rows by timestamp
(line 324), then derive the timeline (line 382). -/
def patient_timeline (hasProneCol : Bool) (rows : List Obs) (ps : Summary) : Timeline :=
  create_patient_timeline hasProneCol (sortByTime rows) ps

/-- `ards_patients` of `load_data` (source line 281): the unique
hospitalization identifiers of time-series rows with a non-null
`ARDS_onset_dttm`. -/
def ards_patients (ts : List Obs) : List ℕ :=
  ((ts.filter (fun r => decide (r.ARDS_onset_dttm ≠ none))).map
    (fun r => r.hospitalization_id)).dedup

/-- Source lines 282-283: both tables restricted by
`isin(ards_patients)`. -/
def load_filter (ts : List Obs) (st : List Summary) : List Obs × List Summary :=
  (ts.filter (fun r => decide (r.hospitalization_id ∈ ards_patients ts)),
   st.filter (fun p => decide (p.hospitalization_id ∈ ards_patients ts)))

/-- The memoized cohort returned by `load_data` and held read-only
for the process lifetime. -/
structure Cohort where
  ts_data : List Obs
  static_data : List Summary

/-- One patient-selection event (source lines 322-324 and 378-382):
pick the first static row with the selected identifier, take a copy of
the patient's time-series rows, sort, and derive the timeline (or report
no data).  The cohort is returned alongside to express its final state. -/
def patient_selection_step (c : Cohort) (hid : ℕ) (hasProneCol : Bool) :
    Cohort × Option Timeline :=
  match c.static_data.filter (fun p => decide (p.hospitalization_id = hid)) with
  | [] => (c, none)
  | ps :: _ =>
    let patient_ts := c.ts_data.filter (fun r => decide (r.hospitalization_id = hid))
    if patient_ts.isEmpty then (c, none)
    else (c, some (patient_timeline hasProneCol patient_ts ps))

/-- Follows the words of claim C7: the maximum of the latest
`days_from_admission` in the *plotted ratio series*, `icu_discharge_day`,
and a floor of 7 days.  The code instead takes the maximum of
`days_from_admission` over *all* of the patient's rows. -/
def spec_axis_upper (hasProneCol : Bool) (rows : List Obs) (ps : Summary) : Flt :=
  pymax3 (seriesMax ((patient_timeline hasProneCol rows ps).ratio_points.map Prod.fst))
    (icu_discharge_day ps) (.fin 7)

/-- A row template used by the concrete instances below. -/
def obs0 : Obs :=
  { hospitalization_id := 1
    recorded_dttm := 0
    icu_in_time := some 0
    ARDS_onset_dttm := none
    pao2 := .null
    spo2 := .null
    fio2_set := .null
    peep_set := .null
    cisatracurium_dose := .nan
    vecuronium_dose := .nan
    rocuronium_dose := .nan
    atracurium_dose := .nan
    pancuronium_dose := .nan
    prone_flag := .null
    new_tracheostomy := .null }

/-- A summary template used by the concrete instances below. -/
def sum0 : Summary :=
  { hospitalization_id := 1
    discharge_datetime := .absent
    icu_los_days := some (.fin 5) }

/-- A row with a nonzero `pao2` over a zero `fio2_set`. -/
def c2row : Obs := { obs0 with pao2 := .num 5, spo2 := .num 99, fio2_set := .num 0 }

/-- A summary with a parsed (non-NaT) discharge timestamp two days after
the epoch, and an ICU length of stay of 4.5 days. -/
def c3sum : Summary :=
  { hospitalization_id := 2
    discharge_datetime := .ts 172800
    icu_los_days := some (.fin (9 / 2)) }

/-- The same summary with the discharge timestamp missing (NaT). -/
def c3sumNaT : Summary := { c3sum with discharge_datetime := .NaT }

/-- The three rows of the spec's onset example, in unsorted input order:
the observations are at T0+5h, T0+2h and T0 with T0 the epoch, and only
the T0+2h row has a non-null onset timestamp. -/
def c4rowA : Obs := { obs0 with recorded_dttm := 18000 }

def c4rowB : Obs := { obs0 with recorded_dttm := 7200, ARDS_onset_dttm := some 7200 }

def c4rowC : Obs := { obs0 with recorded_dttm := 0 }

/-- The five rows of the spec's prone example, one day apart, whose
prone-indicator column holds `[1, "Prone", "walking", 0, "PRONE"]`. -/
def c5row1 : Obs := { obs0 with recorded_dttm := 0, prone_flag := .num 1 }

def c5row2 : Obs := { obs0 with recorded_dttm := 86400, prone_flag := .str "Prone" }

def c5row3 : Obs := { obs0 with recorded_dttm := 172800, prone_flag := .str "walking" }

def c5row4 : Obs := { obs0 with recorded_dttm := 259200, prone_flag := .num 0 }

def c5row5 : Obs := { obs0 with recorded_dttm := 345600, prone_flag := .str "PRONE" }

/-- A row on day 1 with a defined ratio, and a row on day 10 with no
ratio inputs at all. -/
def c7rowA : Obs := { obs0 with recorded_dttm := 86400, pao2 := .num 100, fio2_set := .num 1 }

def c7rowB : Obs := { obs0 with recorded_dttm := 864000 }

def c7sum : Summary :=
  { hospitalization_id := 1
    discharge_datetime := .absent
    icu_los_days := some (.fin 1) }

/-- Claim C1: for every row with numeric-coercible `pao2` and defined,
non-zero `fio2_set`, `respiratory_ratio` is exactly `pao2 / fio2_set`,
whatever `spo2` holds; and for every row whose `pf_ratio` is undefined but
whose `spo2` is defined with a defined non-zero `fio2_set`,
`respiratory_ratio` is exactly `spo2 / fio2_set`. -/
theorem c1_respiratory_ratio_pf_priority (r : Obs) :
    (∀ p f : ℚ, toNumeric r.pao2 = .fin p → toNumeric r.fio2_set = .fin f → f ≠ 0 →
      respiratory_ratio r = .fin (p / f)) ∧
    (∀ s f : ℚ, (pf_ratio r).isNan = true → toNumeric r.spo2 = .fin s →
      toNumeric r.fio2_set = .fin f → f ≠ 0 →
      respiratory_ratio r = .fin (s / f)) := by
  constructor
  · intro p f hp hf hf0
    have hpf : pf_ratio r = .fin (p / f) := by
      simp [pf_ratio, hp, hf, Flt.div, hf0]
    simp [respiratory_ratio, hpf, Flt.fillna, Flt.isNan]
  · intro s f hnan hs hf hf0
    have hsf : sf_ratio r = .fin (s / f) := by
      simp [sf_ratio, hs, hf, Flt.div, hf0]
    cases hpf : pf_ratio r with
    | nan => simp [respiratory_ratio, hpf, hsf, Flt.fillna, Flt.isNan]
    | pinf => rw [hpf] at hnan; simp [Flt.isNan] at hnan
    | ninf => rw [hpf] at hnan; simp [Flt.isNan] at hnan
    | fin q => rw [hpf] at hnan; simp [Flt.isNan] at hnan

theorem flt_div_nan (x : Flt) : Flt.div x .nan = .nan := by cases x <;> rfl

theorem flt_nan_div (x : Flt) : Flt.div .nan x = .nan := by cases x <;> rfl

/-- Stable insertion puts the new row after all rows already in place, so
the result is a permutation of consing it on. -/
theorem insertByTime_perm (r : Obs) (l : List Obs) :
    List.Perm (insertByTime r l) (r :: l) := by
  induction l with
  | nil => exact List.Perm.refl _
  | cons x xs ih =>
    simp only [insertByTime]
    split
    · exact (ih.cons x).trans (List.Perm.swap r x xs)
    · exact List.Perm.refl _

theorem foldl_insert_perm (l acc : List Obs) :
    List.Perm (l.foldl (fun a r => insertByTime r a) acc) (acc ++ l) := by
  induction l generalizing acc with
  | nil => simp
  | cons x xs ih =>
    simp only [List.foldl_cons]
    refine (ih (insertByTime x acc)).trans ?_
    exact ((insertByTime_perm x acc).append_right xs).trans List.perm_middle.symm

/-- The sort is a permutation of its input. -/
theorem sortByTime_perm (l : List Obs) : List.Perm (sortByTime l) l := by
  simpa using foldl_insert_perm l []

theorem c1_respiratory_ratio_pf_priority_witness :
    respiratory_ratio { obs0 with pao2 := .num 80, spo2 := .num 95, fio2_set := .num 2 } =
        .fin (80 / 2) ∧
    respiratory_ratio { obs0 with spo2 := .num 95, fio2_set := .num 2 } = .fin (95 / 2) :=
  ⟨(c1_respiratory_ratio_pf_priority _).1 80 2 rfl rfl (by norm_num),
   (c1_respiratory_ratio_pf_priority _).2 95 2 (by simp [pf_ratio, obs0, toNumeric, Flt.div, Flt.isNan]) rfl rfl (by norm_num)⟩

/-- Claim C2 counterexample: with `fio2_set = 0` defined and `pao2 = 5`
defined, float division gives positive infinity rather than NaN, so the
row's `respiratory_ratio` is defined (`inf`) and the row is NOT dropped
from the plotted ratio series — the claim's "zero ... denominator yields
an undefined (not-a-number) ratio" fails on this row. -/
theorem c2_counterexample :
    toNumeric c2row.fio2_set = Flt.fin 0 ∧
    toNumeric c2row.pao2 = Flt.fin 5 ∧
    respiratory_ratio c2row = Flt.pinf ∧
    Flt.pinf ≠ Flt.nan ∧
    (patient_timeline false [c2row] sum0).ratio_points =
      [(days_from_admission c2row, Flt.pinf)] := by
  refine ⟨rfl, rfl, ?_, by simp, ?_⟩
  · norm_num [respiratory_ratio, pf_ratio, sf_ratio, c2row, obs0, toNumeric, Flt.div,
      Flt.fillna, Flt.isNan]
  · norm_num [patient_timeline, create_patient_timeline, sortByTime, insertByTime,
      List.foldl, respiratory_ratio, pf_ratio, sf_ratio, c2row, obs0, toNumeric, Flt.div,
      Flt.fillna, Flt.isNan, days_from_admission, hours_from_icu_admission]

/-- Claim C2 as amended: an *undefined* `fio2_set` makes the row's
`respiratory_ratio` undefined; a *zero* `fio2_set` makes it undefined
exactly when the numerators in play are zero or undefined — for every row
a nonzero `pao2` (else a nonzero `spo2`) over a zero `fio2_set` gives a
signed infinity, which is defined, and any row with a defined ratio and
defined `days_from_admission` stays in the plotted series; each row's
ratio depends only on that row, and exactly the rows whose
`respiratory_ratio` or `days_from_admission` is undefined are dropped
from the plotted ratio series (no interpolation, no error). -/
theorem c2_undefined_denominator_amended (r : Obs) (rows : List Obs) (ps : Summary) (b : Bool) :
    (toNumeric r.fio2_set = Flt.nan → respiratory_ratio r = Flt.nan) ∧
    (toNumeric r.fio2_set = Flt.fin 0 →
      (toNumeric r.pao2 = Flt.nan ∨ toNumeric r.pao2 = Flt.fin 0) →
      (toNumeric r.spo2 = Flt.nan ∨ toNumeric r.spo2 = Flt.fin 0) →
      respiratory_ratio r = Flt.nan) ∧
    (∀ p : ℚ, toNumeric r.fio2_set = Flt.fin 0 → toNumeric r.pao2 = Flt.fin p → p ≠ 0 →
      respiratory_ratio r = (if 0 < p then Flt.pinf else Flt.ninf) ∧
      (respiratory_ratio r).isNan = false) ∧
    (∀ s : ℚ, toNumeric r.fio2_set = Flt.fin 0 →
      (toNumeric r.pao2 = Flt.nan ∨ toNumeric r.pao2 = Flt.fin 0) →
      toNumeric r.spo2 = Flt.fin s → s ≠ 0 →
      respiratory_ratio r = (if 0 < s then Flt.pinf else Flt.ninf) ∧
      (respiratory_ratio r).isNan = false) ∧
    (r ∈ rows → (respiratory_ratio r).isNan = false → (days_from_admission r).isNan = false →
      (days_from_admission r, respiratory_ratio r) ∈ (patient_timeline b rows ps).ratio_points) ∧
    ((patient_timeline b rows ps).ratio_points =
      ((sortByTime rows).filter
        (fun x => !(respiratory_ratio x).isNan && !(days_from_admission x).isNan)).map
        (fun x => (days_from_admission x, respiratory_ratio x))) := by
  refine ⟨?_, ?_, ?_, ?_, ?_, rfl⟩
  · intro hf
    simp [respiratory_ratio, pf_ratio, sf_ratio, hf, flt_div_nan, Flt.fillna, Flt.isNan]
  · intro hf hp hs
    have hpf : pf_ratio r = Flt.nan := by
      rcases hp with hp | hp <;> simp [pf_ratio, hp, hf, Flt.div]
    have hsf : sf_ratio r = Flt.nan := by
      rcases hs with hs | hs <;> simp [sf_ratio, hs, hf, Flt.div]
    simp [respiratory_ratio, hpf, hsf, Flt.fillna, Flt.isNan]
  · intro p hf hp hpne
    have hpf : pf_ratio r = (if 0 < p then Flt.pinf else Flt.ninf) := by
      simp [pf_ratio, hp, hf, Flt.div, hpne]
    by_cases h0 : 0 < p <;>
      simp [respiratory_ratio, hpf, Flt.fillna, Flt.isNan, h0]
  · intro s hf hp hs hsne
    have hpf : pf_ratio r = Flt.nan := by
      rcases hp with hp | hp <;> simp [pf_ratio, hp, hf, Flt.div]
    have hsf : sf_ratio r = (if 0 < s then Flt.pinf else Flt.ninf) := by
      simp [sf_ratio, hs, hf, Flt.div, hsne]
    by_cases h0 : 0 < s <;>
      simp [respiratory_ratio, hpf, hsf, Flt.fillna, Flt.isNan, h0]
  · intro hmem hrat hdays
    simp only [patient_timeline, create_patient_timeline]
    exact List.mem_map.mpr ⟨r,
      List.mem_filter.mpr ⟨(sortByTime_perm rows).mem_iff.mpr hmem, by simp [hrat, hdays]⟩,
      rfl⟩

theorem c2_undefined_denominator_amended_witness :
    respiratory_ratio { obs0 with spo2 := .num 99 } = Flt.nan ∧
    respiratory_ratio { obs0 with pao2 := .num 0, spo2 := .null, fio2_set := .num 0 } =
      Flt.nan ∧
    (respiratory_ratio c2row = (if (0:ℚ) < 5 then Flt.pinf else Flt.ninf) ∧
      (respiratory_ratio c2row).isNan = false) ∧
    (respiratory_ratio { obs0 with pao2 := .null, spo2 := .num 99, fio2_set := .num 0 } =
        (if (0:ℚ) < 99 then Flt.pinf else Flt.ninf) ∧
      (respiratory_ratio { obs0 with pao2 := .null, spo2 := .num 99, fio2_set := .num 0 }).isNan =
        false) ∧
    (days_from_admission c2row, respiratory_ratio c2row) ∈
      (patient_timeline false [c2row] sum0).ratio_points :=
  ⟨(c2_undefined_denominator_amended { obs0 with spo2 := .num 99 } [] sum0 false).1 rfl,
   (c2_undefined_denominator_amended _ [] sum0 false).2.1 rfl (Or.inr rfl) (Or.inl rfl),
   (c2_undefined_denominator_amended c2row [] sum0 false).2.2.1 5 rfl rfl (by norm_num),
   (c2_undefined_denominator_amended _ [] sum0 false).2.2.2.1 99 rfl (Or.inl rfl) rfl
     (by norm_num),
   (c2_undefined_denominator_amended c2row [c2row] sum0 false).2.2.2.2.1
     (by simp)
     (by norm_num [respiratory_ratio, pf_ratio, sf_ratio, c2row, obs0, toNumeric, Flt.div,
       Flt.fillna, Flt.isNan])
     (by norm_num [days_from_admission, hours_from_icu_admission, c2row, obs0, Flt.div,
       Flt.isNan])⟩

/-- Claim C3 concerns a slip in the code: the guard
`hasattr(get('discharge_datetime'), 'total_seconds')` tests the
*timestamp*, and `pd.Timestamp` has no `total_seconds` (only the
subtraction result, a `Timedelta`, has), while `pd.NaT` *does* have it.
So with a valid discharge timestamp 172800 s after the first row's
`icu_in_time` 0 the code never computes the 2.0-day difference and always
falls back to the 4.5-day length of stay; and with the discharge
timestamp missing the code produces NaN instead of falling back, and
emits no discharge marker (the spec example expects 4.5 and a marker). -/
theorem c3_discharge_day_code_behavior :
    icu_discharge_day c3sum = Flt.fin (9 / 2) ∧
    (172800 - 0 : ℚ) / (24 * 3600) = 2 ∧
    (9 / 2 : ℚ) ≠ 2 ∧
    icu_discharge_day c3sumNaT = Flt.nan ∧
    discharge_marks c3sumNaT = [] := by
  refine ⟨rfl, by norm_num, by norm_num, rfl, ?_⟩
  norm_num [discharge_marks, icu_discharge_day, hasTotalSeconds, c3sumNaT, c3sum,
    Flt.pyTruthy, Flt.gt0]

/-- A row qualifies for the ARDS-onset marker exactly when its
`ARDS_onset_dttm` is non-null. -/
theorem hours_from_ards_onset_isNan (r : Obs) :
    (hours_from_ards_onset r).isNan = false ↔ r.ARDS_onset_dttm ≠ none := by
  cases h : r.ARDS_onset_dttm <;> simp [hours_from_ards_onset, h, Flt.isNan]

/-- Claim C4: if some row of the selected patient has a defined
`hours_from_ards_onset`, exactly one vertical ARDS-onset marker is
emitted, at the `days_from_admission` of the first qualifying row of the
stable ascending sort by `recorded_dttm` — however the rows were ordered
on input. -/
theorem c4_ards_onset_marker_first_after_sort (b : Bool) (rows : List Obs) (ps : Summary)
    (h : ∃ r ∈ rows, r.ARDS_onset_dttm ≠ none) :
    ∃ r l', (sortByTime rows).filter (fun x => !(hours_from_ards_onset x).isNan) = r :: l' ∧
      r.ARDS_onset_dttm ≠ none ∧
      (patient_timeline b rows ps).ards_onset_marks = [days_from_admission r] := by
  obtain ⟨r0, hr0, hne⟩ := h
  have hq0 : (!(hours_from_ards_onset r0).isNan) = true := by
    simp [(hours_from_ards_onset_isNan r0).2 hne]
  have hmem : r0 ∈ (sortByTime rows).filter (fun x => !(hours_from_ards_onset x).isNan) :=
    List.mem_filter.mpr ⟨(sortByTime_perm rows).mem_iff.mpr hr0, hq0⟩
  obtain ⟨r, l', hF⟩ := List.exists_cons_of_ne_nil (List.ne_nil_of_mem hmem)
  refine ⟨r, l', hF, ?_, ?_⟩
  · have : r ∈ (sortByTime rows).filter (fun x => !(hours_from_ards_onset x).isNan) := by
      rw [hF]; exact List.mem_cons_self r l'
    have := (List.mem_filter.mp this).2
    exact (hours_from_ards_onset_isNan r).1 (by simpa using this)
  · simp only [patient_timeline, create_patient_timeline, hF]

theorem c4_ards_onset_marker_first_after_sort_witness :
    (∃ r l', (sortByTime [c4rowA, c4rowB, c4rowC]).filter
        (fun x => !(hours_from_ards_onset x).isNan) = r :: l' ∧
      r.ARDS_onset_dttm ≠ none ∧
      (patient_timeline false [c4rowA, c4rowB, c4rowC] sum0).ards_onset_marks =
        [days_from_admission r]) ∧
    (patient_timeline false [c4rowA, c4rowB, c4rowC] sum0).ards_onset_marks =
      [Flt.fin (2 / 24)] := by
  constructor
  · exact c4_ards_onset_marker_first_after_sort false [c4rowA, c4rowB, c4rowC] sum0
      ⟨c4rowB, by simp, by simp [c4rowB, obs0]⟩
  · norm_num [patient_timeline, create_patient_timeline, sortByTime, insertByTime,
      List.foldl, c4rowA, c4rowB, c4rowC, obs0, hours_from_ards_onset, Flt.isNan,
      days_from_admission, hours_from_icu_admission, Flt.div]

/-- Claim C5: a row qualifies as prone exactly when its indicator
numerically equals 1 or its text form, lowercased, is exactly "prone";
one point marker per qualifying row at the row's `days_from_admission`.
On the indicator column `[1, "Prone", "walking", 0, "PRONE"]` exactly the
1st, 2nd and 5th rows qualify, giving markers at days 0, 1 and 4. -/
theorem c5_prone_rows (c : Cell) (rows : List Obs) (ps : Summary) :
    (isProne c = true ↔ (toNumeric c = Flt.fin 1 ∨ strLower (cellStr c) = "prone")) ∧
    ((patient_timeline true rows ps).prone_marks =
      ((sortByTime rows).filter (fun r => isProne r.prone_flag)).map days_from_admission) ∧
    ((patient_timeline false [c5row1, c5row2, c5row3, c5row4, c5row5] ps).prone_marks = []) ∧
    ((patient_timeline true [c5row1, c5row2, c5row3, c5row4, c5row5] ps).prone_marks =
      [Flt.fin 0, Flt.fin 1, Flt.fin 4]) := by
  have h1 : isProne (Cell.num 1) = true := by decide
  have h2 : isProne (Cell.str "Prone") = true := by decide
  have h3 : isProne (Cell.str "walking") = false := by decide
  have h4 : isProne (Cell.num 0) = false := by decide
  have h5 : isProne (Cell.str "PRONE") = true := by decide
  refine ⟨by simp [isProne], rfl, rfl, ?_⟩
  norm_num [patient_timeline, create_patient_timeline, sortByTime, insertByTime,
    List.foldl, c5row1, c5row2, c5row3, c5row4, c5row5, obs0, h1, h2, h3, h4, h5,
    days_from_admission, hours_from_icu_admission, Flt.div]

/-- Claim C6: a row is an NMB row exactly when one of the five agent dose
fields is present and greater than zero; the NMB-hours statistic is the
count of qualifying rows of the selected patient; and when no row
qualifies the statistic is 0 and no NMB point markers are emitted. -/
theorem c6_nmb_rows (r : Obs) (b : Bool) (rows : List Obs) (ps : Summary) :
    (nmbRow r = true ↔ (r.cisatracurium_dose.gt0 = true ∨ r.vecuronium_dose.gt0 = true ∨
      r.rocuronium_dose.gt0 = true ∨ r.atracurium_dose.gt0 = true ∨
      r.pancuronium_dose.gt0 = true)) ∧
    ((patient_timeline b rows ps).nmb_hours = (rows.filter nmbRow).length) ∧
    ((patient_timeline b rows ps).nmb_hours = 0 →
      (patient_timeline b rows ps).nmb_marks = []) := by
  refine ⟨by simp only [nmbRow, Bool.or_eq_true, or_assoc], ?_, ?_⟩
  · simp only [patient_timeline, create_patient_timeline]
    exact ((sortByTime_perm rows).filter nmbRow).length_eq
  · intro h
    simp only [patient_timeline, create_patient_timeline] at h ⊢
    rw [List.length_eq_zero.mp h, List.map_nil]

theorem c6_nmb_rows_witness :
    (patient_timeline false [obs0] sum0).nmb_marks = [] :=
  (c6_nmb_rows obs0 false [obs0] sum0).2.2 (by decide)

theorem pymax2_fin (a c : ℚ) : pymax2 (Flt.fin a) (Flt.fin c) = Flt.fin (max a c) := by
  simp only [pymax2, Flt.gtB]
  by_cases h : a < c
  · simp [h, max_eq_right h.le]
  · simp [h, max_eq_left (not_lt.mp h)]

/-- Claim C7 counterexample: with a ratio point only at day 1 but a
ratio-less observation at day 10 and `icu_discharge_day = 1`, the code's
axis bound is 10 while the claim's formula gives 7. -/
theorem c7_counterexample :
    (patient_timeline false [c7rowA, c7rowB] c7sum).xaxis_upper = Flt.fin 10 ∧
    spec_axis_upper false [c7rowA, c7rowB] c7sum = Flt.fin 7 ∧
    (patient_timeline false [c7rowA, c7rowB] c7sum).xaxis_upper ≠
      spec_axis_upper false [c7rowA, c7rowB] c7sum := by
  have hcode : (patient_timeline false [c7rowA, c7rowB] c7sum).xaxis_upper = Flt.fin 10 := by
    norm_num [patient_timeline, create_patient_timeline, sortByTime, insertByTime,
      List.foldl, c7rowA, c7rowB, c7sum, obs0, days_from_admission,
      hours_from_icu_admission, Flt.div, seriesMax, Flt.isNan, Flt.gtB, pymax3, pymax2,
      icu_discharge_day, hasTotalSeconds]
  have hspec : spec_axis_upper false [c7rowA, c7rowB] c7sum = Flt.fin 7 := by
    norm_num [spec_axis_upper, patient_timeline, create_patient_timeline, sortByTime,
      insertByTime, List.foldl, c7rowA, c7rowB, c7sum, obs0, days_from_admission,
      hours_from_icu_admission, respiratory_ratio, pf_ratio, sf_ratio, toNumeric,
      Flt.div, Flt.fillna, Flt.isNan, seriesMax, Flt.gtB, pymax3, pymax2,
      icu_discharge_day, hasTotalSeconds]
  refine ⟨hcode, hspec, ?_⟩
  rw [hcode, hspec]
  decide

/-- Claim C7 as amended: the axis upper bound is the maximum of the
latest `days_from_admission` over ALL of the patient's observation rows
(not only the plotted ratio series), `icu_discharge_day`, and the 7-day
floor. -/
theorem c7_axis_upper_amended (b : Bool) (rows : List Obs) (ps : Summary) (D L : ℚ)
    (h1 : seriesMax ((sortByTime rows).map days_from_admission) = Flt.fin D)
    (h2 : icu_discharge_day ps = Flt.fin L) :
    (patient_timeline b rows ps).xaxis_upper = Flt.fin (max (max D L) 7) := by
  simp only [patient_timeline, create_patient_timeline, pymax3, h1, h2, pymax2_fin]

theorem c7_axis_upper_amended_witness :
    (patient_timeline false [c7rowA] c7sum).xaxis_upper = Flt.fin (max (max 1 1) 7) :=
  c7_axis_upper_amended false [c7rowA] c7sum 1 1
    (by norm_num [sortByTime, insertByTime, List.foldl, seriesMax, days_from_admission,
      hours_from_icu_admission, c7rowA, obs0, Flt.div, Flt.isNan, Flt.gtB])
    rfl

/-- Claim C8: after loading, a row of either table is kept exactly when
its patient has at least one observation with a non-null ARDS-onset
timestamp. -/
theorem c8_cohort_filter (ts : List Obs) (st : List Summary) (r : Obs) (p : Summary) :
    (r ∈ (load_filter ts st).1 ↔ r ∈ ts ∧ ∃ x ∈ ts,
      x.hospitalization_id = r.hospitalization_id ∧ x.ARDS_onset_dttm ≠ none) ∧
    (p ∈ (load_filter ts st).2 ↔ p ∈ st ∧ ∃ x ∈ ts,
      x.hospitalization_id = p.hospitalization_id ∧ x.ARDS_onset_dttm ≠ none) := by
  constructor <;>
  · simp only [load_filter, List.mem_filter, decide_eq_true_eq, ards_patients,
      List.mem_dedup, List.mem_map]
    tauto

/-- Claim C9: a patient-selection event leaves the cached cohort
unchanged — the derivation only reads a per-selection copy of the
patient's rows. -/
theorem c9_cohort_cache_unchanged (c : Cohort) (hid : ℕ) (b : Bool) :
    (patient_selection_step c hid b).1 = c := by
  unfold patient_selection_step
  split
  · rfl
  · dsimp only
    split <;> rfl

/-- Claim C10: with no prone-indicator column the derivation still
produces a timeline, with zero prone markers, and every other series and
marker family is what it would be with the column present. -/
theorem c10_no_prone_column (rows : List Obs) (ps : Summary) (b : Bool) :
    (patient_timeline false rows ps).prone_marks = [] ∧
    (patient_timeline b rows ps).ratio_points = (patient_timeline false rows ps).ratio_points ∧
    (patient_timeline b rows ps).peep_points = (patient_timeline false rows ps).peep_points ∧
    (patient_timeline b rows ps).ards_onset_marks =
      (patient_timeline false rows ps).ards_onset_marks ∧
    (patient_timeline b rows ps).nmb_marks = (patient_timeline false rows ps).nmb_marks ∧
    (patient_timeline b rows ps).trach_marks = (patient_timeline false rows ps).trach_marks ∧
    (patient_timeline b rows ps).hline_ys = (patient_timeline false rows ps).hline_ys ∧
    (patient_timeline b rows ps).dis_marks = (patient_timeline false rows ps).dis_marks ∧
    (patient_timeline b rows ps).xaxis_upper = (patient_timeline false rows ps).xaxis_upper ∧
    (patient_timeline b rows ps).nmb_hours = (patient_timeline false rows ps).nmb_hours :=
  ⟨rfl, rfl, rfl, rfl, rfl, rfl, rfl, rfl, rfl, rfl⟩

end Ards
